import Mathlib

/-!
Verification of the matchmaking worker core against its Python source:
the domain value objects (`MatchCriteria`, `MatchRequest`, `UserState`),
the entities (`User`, `Match`), the Redis queue-store operations, the
find-match and process-request use cases, and the message-handler
validation, embedded shallowly.

Modelling conventions:
* Python floats are modelled as exact rationals (`ℚ`); the properties
  verified here concern which formula the code computes, not
  floating-point rounding.
* Wall-clock instants (`datetime.now`, `time.time`) are rational epoch
  seconds supplied as an explicit `now` parameter of each execution.
* The Redis store is a record holding the `waiting_queue` list in LRANGE
  order (index 0 is the head, which LPUSH prepends to), the set of
  `searching:` sentinel keys, and the `user:` / `criteria:` hashes as
  association lists keyed by user id.  The hashes store typed values:
  the string serialisation used by the Python (`str(fluency)`,
  `json.dumps(topics)`, `str(dating)` parsed back with `int`,
  `json.loads`, `.lower() == 'true'`) round-trips exactly, so it is
  elided.  Key TTLs are not modelled: no execution considered here
  crosses an expiry of a Redis key.
* Metrics calls are elided except for `record_error` in the
  process-request use case, whose error strings the error-handling
  properties mention; uuid generation is modelled as an opaque constant
  string, and uniqueness of ids is outside the model.
* `MemoryStateRepository` is modelled as an association list; its LRU
  `access_order` bookkeeping and the background cleanup task are not
  modelled (no execution here exceeds `max_size` or runs the cleanup
  loop).
-/

namespace QueueWorker

/-- Status of a user in the matching system (`UserStatus` in
`src/domain/value_objects.py`). -/
inductive UserStatus where
  | WAITING
  | MATCHED
  | CANCELED
  | EXPIRED
deriving Repr, DecidableEq

/-- Search criteria of a user (`MatchCriteria` in
`src/domain/value_objects.py`).  `fluency` is a Python `int`, modelled
as `ℤ`. -/
structure MatchCriteria where
  language : String
  fluency : Int
  topics : List String
  dating : Bool
deriving Repr, DecidableEq

/-- The `__post_init__` validation of `MatchCriteria`: non-empty
language, fluency in 0..10, non-empty topics. -/
def MatchCriteria.Valid (c : MatchCriteria) : Prop :=
  c.language ≠ "" ∧ 0 ≤ c.fluency ∧ c.fluency ≤ 10 ∧ c.topics ≠ []

instance (c : MatchCriteria) : Decidable c.Valid := by
  unfold MatchCriteria.Valid; infer_instance

/-- `MatchCriteria.is_compatible_with`: same language, fluency levels at
most 1 apart, and a common topic (`set(...).intersection` non-empty,
modelled as `List.any`/`contains`). -/
def MatchCriteria.is_compatible_with (c other : MatchCriteria) : Bool :=
  if c.language != other.language then false
  else if decide (1 < (c.fluency - other.fluency).natAbs) then false
  else if !(c.topics.any (fun t => other.topics.contains t)) then false
  else true

/-- `MatchCriteria.relax`: at step 3 drop the dating requirement, at
step 5 append the topic "general", at step 8 lower a positive fluency by
one; every other step leaves the criteria unchanged. -/
def MatchCriteria.relax (c : MatchCriteria) (step : Int) : MatchCriteria :=
  let relaxed_topics := c.topics
  let relaxed_dating := c.dating
  let relaxed_fluency := c.fluency
  let relaxed_dating := if step == 3 then false else relaxed_dating
  let relaxed_topics := if step == 5 then relaxed_topics ++ ["general"] else relaxed_topics
  let relaxed_fluency :=
    if step == 8 && decide (0 < relaxed_fluency) then relaxed_fluency - 1 else relaxed_fluency
  { language := c.language, fluency := relaxed_fluency,
    topics := relaxed_topics, dating := relaxed_dating }

/-- Detailed compatibility score (`CompatibilityScore` in
`src/domain/value_objects.py`); `component_scores` keeps the dict's
insertion order as an association list. -/
structure CompatibilityScore where
  total_score : ℚ
  component_scores : List (String × ℚ)
  confidence : ℚ
  explanation : String
deriving Repr, DecidableEq

/-- A user in the matching system (`User` in `src/domain/entities.py`). -/
structure User where
  user_id : Nat
  username : String
  criteria : MatchCriteria
  gender : String
  lang_code : String
  created_at : ℚ
  status : UserStatus
deriving Repr, DecidableEq

/-- `User.is_compatible_with`: distinct ids and compatible criteria. -/
def User.is_compatible_with (u other : User) : Bool :=
  if u.user_id == other.user_id then false
  else u.criteria.is_compatible_with other.criteria

/-- `User._calculate_confidence`: the share of component scores above
0.7, plus 0.2, capped at 1. -/
def calculate_confidence (scores : List (String × ℚ)) : ℚ :=
  let high_scores : ℚ := ((scores.filter (fun kv => decide ((7:ℚ)/10 < kv.2))).length : ℚ)
  min 1 (high_scores / (scores.length : ℚ) + 2/10)

/-- `User._generate_explanation` (the `weights` parameter is unused in
the source as well). -/
def generate_explanation (scores : List (String × ℚ)) (weights : List (String × ℚ)) : String :=
  let _ := weights
  let explanations : List String :=
    (if (scores.lookup "language").getD 0 == 1 then ["одинаковый язык общения"] else []) ++
    (if decide ((8:ℚ)/10 < (scores.lookup "fluency").getD 0) then ["схожий уровень владения языком"] else []) ++
    (if decide ((5:ℚ)/10 < (scores.lookup "topics").getD 0) then ["общие интересы"] else []) ++
    (if (scores.lookup "dating").getD 0 == 1 then ["совпадающие предпочтения по знакомствам"] else [])
  if !explanations.isEmpty then
    "Высокая совместимость: " ++ String.intercalate ", " explanations
  else
    "Базовая совместимость"

/-- `User.calculate_compatibility_score`: the language sub-score is an
exact equality check; the fluency, topics and dating sub-scores are the
placeholder constant 0.8 (marked "заглушка" in the source), and
activity / success_rate the placeholder 0.7.  The total is the
weight-scaled sum over the score dict. -/
def User.calculate_compatibility_score (u other : User) (weights : List (String × ℚ)) :
    CompatibilityScore :=
  let scores : List (String × ℚ) :=
    [("language", if u.criteria.language == other.criteria.language then 1 else 0),
     ("fluency", 8/10),
     ("topics", 8/10),
     ("dating", 8/10),
     ("activity", 7/10),
     ("success_rate", 7/10)]
  let total_score := (scores.map (fun kv => kv.2 * ((weights.lookup kv.1).getD 0))).sum
  { total_score := total_score,
    component_scores := scores,
    confidence := calculate_confidence scores,
    explanation := generate_explanation scores weights }

/-- Configuration `MatchingConfig.max_wait_time` (seconds). -/
def max_wait_time : ℚ := 150

/-- Configuration `MatchingConfig.initial_delay` (seconds). -/
def initial_delay : ℚ := 1

/-- Configuration `MatchingConfig.max_retries`. -/
def max_retries : Nat := 20

/-- Configuration `MatchingConfig.compatibility_threshold`. -/
def compatibility_threshold : ℚ := 7/10

/-- Configuration `MatchingConfig.scoring_weights` defaults. -/
def scoring_weights : List (String × ℚ) :=
  [("language", 35/100), ("fluency", 25/100), ("topics", 20/100),
   ("dating", 10/100), ("activity", 5/100), ("success_rate", 5/100)]

/-- The canceled search status; `WorkerConfig` defines
`CANCELED = 'search_canceled'` (the use case reads it as
`config.SEARCH_CANCELED`). -/
def SEARCH_CANCELED : String := "search_canceled"

/-- The completed search status; `WorkerConfig` defines
`COMPLETED = 'search_completed'`. -/
def SEARCH_COMPLETED : String := "search_completed"

/-- The default TTL of `UserState.is_expired` (300 seconds). -/
def state_ttl : ℚ := 300

/-- Domain exceptions raised by entity construction and the queue store
(`src/domain/exceptions.py` and `ValueError` in `__post_init__`). -/
inductive DomainError where
  | userAlreadyInSearch
  | incompatibleUsers
  | valueError
deriving Repr, DecidableEq

/-- A match between two users (`Match` in `src/domain/entities.py`). -/
structure Match where
  match_id : String
  user1 : User
  user2 : User
  room_id : String
  compatibility_score : ℚ
  created_at : ℚ
  status : String
deriving Repr, DecidableEq

/-- `Match.create`: raises `IncompatibleUsersException` unless the users
are compatible, then runs the dataclass validation (no self-match, score
in [0,1]) and builds an active match.  `uuid4()` is opaque here and
`datetime.now()` is the `now` parameter. -/
def Match.create (user1 user2 : User) (compatibility_score : ℚ) (now : ℚ) :
    Except DomainError Match :=
  if !(user1.is_compatible_with user2) then .error .incompatibleUsers
  else if user1.user_id == user2.user_id then .error .valueError
  else if !(decide (0 ≤ compatibility_score) && decide (compatibility_score ≤ 1)) then
    .error .valueError
  else
    .ok { match_id := "uuid4", user1 := user1, user2 := user2, room_id := "uuid4",
          compatibility_score := compatibility_score, created_at := now, status := "active" }

/-- The fields of the `user:` hash written by `RedisUserRepository.save`. -/
structure StoredUser where
  username : String
  gender : String
  lang_code : String
  created_at : ℚ
deriving Repr, DecidableEq

/-- The Redis store of `RedisUserRepository`: the `waiting_queue` list in
LRANGE order (LPUSH prepends at index 0), the `searching:` sentinel keys,
and the per-user `user:` and `criteria:` hashes. -/
structure RedisState where
  waiting_queue : List Nat
  searching : List Nat
  user_data : List (Nat × StoredUser)
  criteria_data : List (Nat × MatchCriteria)
deriving Repr, DecidableEq

/-- The empty Redis store. -/
def RedisState.empty : RedisState :=
  { waiting_queue := [], searching := [], user_data := [], criteria_data := [] }

/-- HSET overwrite semantics on an association list. -/
def assoc_set {α : Type} (l : List (Nat × α)) (k : Nat) (v : α) : List (Nat × α) :=
  (k, v) :: l.filter (fun kv => kv.1 != k)

/-- Add a key to a Redis key set (SETEX of a sentinel). -/
def set_add (l : List Nat) (k : Nat) : List Nat :=
  if l.contains k then l else k :: l

/-- `RedisUserRepository.save`: write the `user:` and `criteria:` hashes. -/
def save (s : RedisState) (user : User) : RedisState :=
  { s with
    user_data := assoc_set s.user_data user.user_id
      { username := user.username, gender := user.gender,
        lang_code := user.lang_code, created_at := user.created_at },
    criteria_data := assoc_set s.criteria_data user.user_id user.criteria }

/-- `RedisUserRepository.find_by_id`: both hashes must exist; the
reconstructed user carries the dataclass default status `WAITING`. -/
def find_by_id (s : RedisState) (user_id : Nat) : Option User :=
  match s.user_data.lookup user_id, s.criteria_data.lookup user_id with
  | some ud, some cd =>
      some { user_id := user_id, username := ud.username, criteria := cd,
             gender := ud.gender, lang_code := ud.lang_code,
             created_at := ud.created_at, status := .WAITING }
  | _, _ => none

/-- `RedisUserRepository.is_searching`: EXISTS on the sentinel key. -/
def is_searching (s : RedisState) (user_id : Nat) : Bool :=
  s.searching.contains user_id

/-- `RedisUserRepository.add_to_queue`: reject a user who is already
searching with status WAITING, otherwise save the user, LPUSH the id onto
the waiting list and SETEX the `searching:` sentinel. -/
def add_to_queue (s : RedisState) (user : User) : Except DomainError RedisState :=
  if is_searching s user.user_id && (user.status == UserStatus.WAITING) then
    .error .userAlreadyInSearch
  else
    let s1 := save s user
    .ok { s1 with waiting_queue := user.user_id :: s1.waiting_queue,
                  searching := set_add s1.searching user.user_id }

/-- `RedisUserRepository.remove_from_queue`: LREM of every occurrence of
the id (the code counts the occurrences first), and DEL of the sentinel
and both hashes. -/
def remove_from_queue (s : RedisState) (user_id : Nat) : RedisState :=
  { waiting_queue := s.waiting_queue.filter (fun m => m != user_id),
    searching := s.searching.filter (fun m => m != user_id),
    user_data := s.user_data.filter (fun kv => kv.1 != user_id),
    criteria_data := s.criteria_data.filter (fun kv => kv.1 != user_id) }

/-- `RedisUserRepository.update_user_criteria`: HSET overwrite of the
`criteria:` hash (the Python passes a dict holding exactly the four
criteria fields). -/
def update_user_criteria (s : RedisState) (user_id : Nat) (criteria : MatchCriteria) :
    RedisState :=
  { s with criteria_data := assoc_set s.criteria_data user_id criteria }

/-- The per-member test of the Lua scan inside `find_and_reserve_match`:
a member other than the seeker whose stored criteria exist, share the
seeker's language and differ in fluency by at most 2. -/
def prefilter_pass (criteria_data : List (Nat × MatchCriteria)) (user_id : Nat)
    (language : String) (fluency : Int) (member_id : Nat) : Bool :=
  member_id != user_id &&
    match criteria_data.lookup member_id with
    | some c => c.language == language && decide ((c.fluency - fluency).natAbs ≤ 2)
    | none => false

/-- The first Lua script of `find_and_reserve_match`: nothing unless the
seeker is still in the waiting list, else the first member of the LRANGE
scan passing the prefilter. -/
def find_candidate_script (s : RedisState) (user_id : Nat) (language : String)
    (fluency : Int) : Option Nat :=
  if s.waiting_queue.contains user_id then
    s.waiting_queue.find? (prefilter_pass s.criteria_data user_id language fluency)
  else none

/-- The second Lua script of `find_and_reserve_match` (and of
`reserve_candidate`): if both ids are still in the waiting list, LREM one
occurrence of each and DEL both sentinels. -/
def reserve_script (s : RedisState) (user_id candidate_id : Nat) : Bool × RedisState :=
  if s.waiting_queue.contains user_id && s.waiting_queue.contains candidate_id then
    (true,
     { s with
       waiting_queue := (s.waiting_queue.erase user_id).erase candidate_id,
       searching := (s.searching.filter (fun m => m != user_id)).filter
         (fun m => m != candidate_id) })
  else (false, s)

/-- `RedisUserRepository.find_and_reserve_match`: run the scan script;
load the returned candidate and check full compatibility; on success run
the reserve script, returning the candidate only if the reservation
succeeded.  (Note: the user and criteria hashes of a reserved pair are
left in place.) -/
def find_and_reserve_match (s : RedisState) (user : User) : Option User × RedisState :=
  match find_candidate_script s user.user_id user.criteria.language user.criteria.fluency with
  | none => (none, s)
  | some candidate_id =>
    match find_by_id s candidate_id with
    | none => (none, s)
    | some candidate =>
      if !(user.is_compatible_with candidate) then (none, s)
      else
        let res := reserve_script s user.user_id candidate.user_id
        if res.1 then (some candidate, res.2) else (none, res.2)

/-- The Lua script of `find_compatible_users`: collect up to `limit`
members other than the seeker whose criteria hash exists and matches the
seeker's language, in LRANGE order (`table.insert` appends). -/
def collect_candidates (criteria_data : List (Nat × MatchCriteria)) (user_id : Nat)
    (language : String) (limit : Nat) : List Nat → List Nat → List Nat
  | [], acc => acc
  | member_id :: rest, acc =>
    let acc :=
      if member_id != user_id && decide (acc.length < limit) then
        match criteria_data.lookup member_id with
        | some c => if c.language == language then acc ++ [member_id] else acc
        | none => acc
      else acc
    collect_candidates criteria_data user_id language limit rest acc

/-- `RedisUserRepository.find_compatible_users`: run the collection
script, then load each candidate and keep those passing the full
`is_compatible_with` check.  The scan is read-only: it reserves nothing
and removes nothing from the waiting list. -/
def find_compatible_users (s : RedisState) (user : User) (limit : Nat) : List User :=
  (collect_candidates s.criteria_data user.user_id user.criteria.language limit
      s.waiting_queue []).filterMap
    (fun candidate_id =>
      match find_by_id s candidate_id with
      | some candidate =>
        if user.is_compatible_with candidate then some candidate else none
      | none => none)

/-- A matchmaking request message (`MatchRequest` in
`src/domain/value_objects.py`). -/
structure MatchRequest where
  user_id : Nat
  username : String
  criteria : MatchCriteria
  gender : String
  lang_code : String
  status : String
  created_at : ℚ
  current_time : ℚ
  source : String
  retry_count : Nat
deriving Repr, DecidableEq

/-- In-process state of a user (`UserState` in
`src/domain/value_objects.py`). -/
structure UserState where
  user_id : Nat
  status : UserStatus
  created_at : ℚ
  retry_count : Nat
  last_updated : ℚ
deriving Repr, DecidableEq

/-- `UserState.is_expired`: strictly more than `ttl` seconds old. -/
def UserState.is_expired (st : UserState) (now ttl : ℚ) : Bool :=
  decide (ttl < now - st.created_at)

/-- `MemoryStateRepository.get_state`: a hit returns the state; an
expired entry (default TTL 300 s) is evicted and reported missing.  The
pair carries the possibly-evicted map. -/
def get_state (now : ℚ) (states : List (Nat × UserState)) (user_id : Nat) :
    Option UserState × List (Nat × UserState) :=
  match states.lookup user_id with
  | some st =>
    if st.is_expired now state_ttl then
      (none, states.filter (fun kv => kv.1 != user_id))
    else (some st, states)
  | none => (none, states)

/-- `MemoryStateRepository.save_state`. -/
def save_state (states : List (Nat × UserState)) (st : UserState) :
    List (Nat × UserState) :=
  assoc_set states st.user_id st

/-- `MemoryStateRepository.delete_state`. -/
def delete_state (states : List (Nat × UserState)) (user_id : Nat) :
    List (Nat × UserState) :=
  states.filter (fun kv => kv.1 != user_id)

/-- `MemoryStateRepository.update_state` deadlocks on every call: it
opens `async with self.lock` on the repository's non-reentrant
`asyncio.Lock` and then awaits `get_state`, whose body opens
`async with self.lock` on the very same lock.  The inner acquisition
can never be granted, so the coroutine blocks forever before reading or
writing any state — the intended look-up-and-save body after the
`get_state` await is unreachable.  `none` marks this divergence; no
completing result exists for any input. -/
def update_state (_now : ℚ) (_states : List (Nat × UserState)) (_user_id : Nat)
    (_new_status : UserStatus) : Option (List (Nat × UserState)) :=
  none

/-- The mutable stores one processing attempt touches: the shared Redis
store and the per-process state map. -/
structure WorldState where
  redis : RedisState
  states : List (Nat × UserState)
deriving Repr, DecidableEq

/-- Errors of the use-case layer: `UserNotFoundException` and the
`MatchingException` that `FindMatchUseCase.execute` re-wraps every
exception into. -/
inductive WorkerError where
  | userNotFound
  | matchingException
deriving Repr, DecidableEq

/-- Modelled from the spec: `release_reservations` is called by
`FindMatchUseCase` but defined nowhere under `src/`; §6 of the spec
lists "reservation entries as needed by the atomic script" as separate
keys of the queue store, so releasing them touches neither the waiting
list nor the sentinels nor the user/criteria hashes.  On the modelled
`RedisState` it is therefore the identity. -/
def release_reservations (s : RedisState) (user_ids : List Nat) : RedisState :=
  let _ := user_ids
  s

/-- Modelled from the spec: `ScoredCandidate` is imported by the use
cases from `src.domain.entities` but its definition is not under
`src/`; §4.6 describes ranking candidates by compatibility score, so it
pairs a candidate with their score. -/
structure ScoredCandidate where
  candidate : User
  score : CompatibilityScore
deriving Repr, DecidableEq

/-- One comparison step of the ranking: keep the strictly higher total
score, the earlier-listed candidate on ties. -/
def pick_step (best : Option ScoredCandidate) (c : ScoredCandidate) : Option ScoredCandidate :=
  match best with
  | none => some c
  | some b => if decide (b.score.total_score < c.score.total_score) then some c else some b

/-- The `scored_candidates.sort(reverse=True)[0]` step: the stable
descending sort followed by taking the head returns the first element
attaining the maximal total score. -/
def pick_best (scored_candidates : List ScoredCandidate) : Option ScoredCandidate :=
  scored_candidates.foldl pick_step none

/-- The loop body of `_select_best_candidate`: score one candidate with
the configured weights and keep them when at or above
`compatibility_threshold`. -/
def score_filter (user candidate : User) : Option ScoredCandidate :=
  let score := user.calculate_compatibility_score candidate scoring_weights
  if decide (compatibility_threshold ≤ score.total_score) then
    some { candidate := candidate, score := score }
  else none

/-- `FindMatchUseCase._select_best_candidate`: score every candidate,
keep those clearing the threshold, and return the best. -/
def select_best_candidate (user : User) (candidates : List User) : Option ScoredCandidate :=
  pick_best (candidates.filterMap (score_filter user))

/-- `FindMatchUseCase.execute`: load the seeker from Redis, collect
compatible candidates with `find_compatible_users` (limit 50), and build
a `Match` with the best-scoring candidate.  A missing seeker raises
`UserNotFoundException`, re-wrapped into `MatchingException` by the
catch-all handler.  The calls to `release_reservations` keep the
source's control flow; on the modelled store they change nothing. -/
def FindMatchUseCase.execute (now : ℚ) (s : RedisState) (user_id : Nat) :
    Except WorkerError (Option Match) :=
  match find_by_id s user_id with
  | none => .error .matchingException
  | some user =>
    let candidates := find_compatible_users s user 50
    if candidates.isEmpty then .ok none
    else
      match select_best_candidate user candidates with
      | none =>
        let _ := release_reservations s (candidates.map (fun c => c.user_id))
        .ok none
      | some best_candidate =>
        let _ := release_reservations s [user_id, best_candidate.candidate.user_id]
        match Match.create user best_candidate.candidate best_candidate.score.total_score now with
        | .error _ => .error .matchingException
        | .ok m => .ok (some m)

/-- Environment of one processing attempt: the wall-clock instant, and
the outcome of the durable-store version check and of `uow.commit()`.
Modelled from the spec: `uow.matches.version()` and `uow.db_version`
belong to the Unit-of-Work variant with a version counter that is not
under `src/` (spec §9); the embedding keeps only the branching the
version check and a commit exception induce.  `commit_raises` is
consulted only when the version check passes, matching the order of the
source. -/
structure ExecEnv where
  now : ℚ
  version_ok : Bool
  commit_raises : Bool
deriving Repr, DecidableEq

/-- Observable outcome of one `ProcessMatchRequestUseCase.execute` call:
the boolean the use case returns (`ack`: handled / failed), the match of
a successful commit if one happened, the requests published for delayed
redelivery with their delay in seconds, the dead-letter publications,
the `record_error` error types, and the stores.  `hangs = true` marks a
run whose coroutine never returns (the post-commit `uow.update`
deadlock): no boolean is ever returned and no ack or nack is ever sent
— `ack` is then conventionally `false` — and `world` is the store state
at the point of blocking. -/
structure ProcessResult where
  ack : Bool
  committed : Option Match
  published : List (MatchRequest × ℚ)
  dead_letters : List String
  errors : List String
  world : WorldState
  hangs : Bool
deriving Repr, DecidableEq

/-- `ProcessMatchRequestUseCase._cleanup_user_state`: delete the
in-process state and remove the user from the queue store. -/
def cleanup_user_state (w : WorldState) (user_id : Nat) : WorldState :=
  { redis := remove_from_queue w.redis user_id,
    states := delete_state w.states user_id }

/-- `ProcessMatchRequestUseCase._should_process_request`: terminal
statuses are cleaned up; an expired state triggers the timeout path; a
user who is no longer searching is skipped only when the stored state
says MATCHED; a missing state is created fresh with status WAITING. -/
def should_process_request (env : ExecEnv) (w : WorldState) (request : MatchRequest) :
    Bool × WorldState :=
  if request.status == SEARCH_CANCELED || request.status == SEARCH_COMPLETED then
    (false, cleanup_user_state w request.user_id)
  else
    match get_state env.now w.states request.user_id with
    | (some state, states1) =>
      let w1 : WorldState := { redis := w.redis, states := states1 }
      if state.is_expired env.now max_wait_time then
        (false, cleanup_user_state w1 request.user_id)
      else if !(is_searching w.redis request.user_id) && state.status == UserStatus.MATCHED then
        (false, w1)
      else (true, w1)
    | (none, states1) =>
      let new_state : UserState :=
        { user_id := request.user_id, status := .WAITING, created_at := env.now,
          retry_count := 0, last_updated := env.now }
      (true, { redis := w.redis, states := save_state states1 new_state })

/-- `ProcessMatchRequestUseCase._should_delay_processing`: less than
`initial_delay` seconds since the request was created. -/
def should_delay_processing (env : ExecEnv) (request : MatchRequest) : Bool :=
  decide (env.now - request.created_at < initial_delay)

/-- `ProcessMatchRequestUseCase._schedule_retry` with no explicit delay:
republish the request with a fresh `current_time` after the remainder of
the initial delay. -/
def schedule_retry (env : ExecEnv) (request : MatchRequest) : MatchRequest × ℚ :=
  let delay := max 0 (initial_delay - (env.now - request.created_at))
  ({ request with current_time := env.now }, delay)

/-- `ProcessMatchRequestUseCase._relax_criteria_and_retry`: relax the
criteria by the incoming retry count, write them back to the queue
store, and republish with `retry_count + 1` after
`min(30, 2 * (updated_request.retry_count + 1))` seconds. -/
def relax_criteria_and_retry (env : ExecEnv) (w : WorldState) (request : MatchRequest) :
    WorldState × MatchRequest × ℚ :=
  let relaxed_criteria := request.criteria.relax (request.retry_count : Int)
  let updated_request : MatchRequest :=
    { request with criteria := relaxed_criteria, current_time := env.now,
                   retry_count := request.retry_count + 1 }
  let w1 : WorldState :=
    { redis := update_user_criteria w.redis request.user_id relaxed_criteria,
      states := w.states }
  let delay : ℚ := min 30 (2 * ((updated_request.retry_count : ℚ) + 1))
  (w1, updated_request, delay)

/-- `ProcessMatchRequestUseCase._handle_no_match`: past `max_wait_time`
or `max_retries` run the timeout cleanup, otherwise relax the criteria
and schedule the retry; both paths return handled. -/
def handle_no_match (env : ExecEnv) (w : WorldState) (request : MatchRequest) :
    ProcessResult :=
  if decide (max_wait_time ≤ env.now - request.created_at)
      || decide (max_retries ≤ request.retry_count) then
    { ack := true, committed := none, published := [], dead_letters := [], errors := [],
      world := cleanup_user_state w request.user_id, hangs := false }
  else
    let r := relax_criteria_and_retry env w request
    { ack := true, committed := none, published := [(r.2.1, r.2.2)], dead_letters := [],
      errors := [], world := r.1, hangs := false }

/-- The commit path writes `await self.uow.update(user_ids, MATCHED)`;
the only update operation a Unit of Work defines under `src/` is
`SQLAlchemyUnitOfWork._update`: pop ids from the end of the list and,
for each, await `update_state` and then `remove_from_queue`.  Because
`update_state` deadlocks, the loop blocks forever at its very first id,
before any `remove_from_queue`: with a non-empty list the loop never
completes and the stores are left untouched by it.  `none` marks the
divergence; the `some` arm keeps the source's intended continuation. -/
def uow_update_go (env : ExecEnv) (new_status : UserStatus) :
    WorldState → List Nat → Option WorldState
  | w, [] => some w
  | w, uid :: rest =>
    match update_state env.now w.states uid new_status with
    | none => none
    | some states1 =>
      uow_update_go env new_status
        { redis := remove_from_queue w.redis uid, states := states1 }
        rest

/-- `uow.update`, entered from the end of the id list (`user_ids.pop()`);
`none` when the loop never returns. -/
def uow_update (env : ExecEnv) (w : WorldState) (user_ids : List Nat)
    (new_status : UserStatus) : Option WorldState :=
  uow_update_go env new_status w user_ids.reverse

/-- The dead-letter payload `f"Processing error: {str(e)}"` (the
exception text is not tracked by the model). -/
def processing_error_letter : String := "Processing error"

/-- `ProcessMatchRequestUseCase.execute`: the admission checks, the
initial-delay gate, the find-match attempt inside the unit of work, the
version-checked commit followed by the post-commit `uow.update` — which
deadlocks, so a run whose commit succeeds never returns (`hangs`) with
the queue store untouched — the fall-through to `_handle_no_match` when
no match was found or the version check failed, and the catch-all that
records `request_processing_error` and dead-letters the request,
returning failed. -/
def ProcessMatchRequestUseCase.execute (env : ExecEnv) (w : WorldState)
    (request : MatchRequest) : ProcessResult :=
  let sp := should_process_request env w request
  if !sp.1 then
    { ack := true, committed := none, published := [], dead_letters := [], errors := [],
      world := sp.2, hangs := false }
  else if should_delay_processing env request then
    let sr := schedule_retry env request
    { ack := true, committed := none, published := [sr], dead_letters := [], errors := [],
      world := sp.2, hangs := false }
  else
    match FindMatchUseCase.execute env.now sp.2.redis request.user_id with
    | .error _ =>
      { ack := false, committed := none, published := [],
        dead_letters := [processing_error_letter], errors := ["request_processing_error"],
        world := sp.2, hangs := false }
    | .ok none => handle_no_match env sp.2 request
    | .ok (some m) =>
      if env.version_ok then
        if env.commit_raises then
          { ack := false, committed := none, published := [],
            dead_letters := [processing_error_letter],
            errors := ["request_processing_error"], world := sp.2, hangs := false }
        else
          match uow_update env sp.2 [m.user1.user_id, m.user2.user_id] .MATCHED with
          | some w2 =>
            { ack := true, committed := some m, published := [], dead_letters := [],
              errors := [], world := w2, hangs := false }
          | none =>
            { ack := false, committed := some m, published := [], dead_letters := [],
              errors := [], world := sp.2, hangs := true }
      else handle_no_match env sp.2 request

/-- A JSON-like payload value as the message handler receives it
(Python `int`, `str`, `bool`, `list`, `dict`; floats do not occur in
the validated fields and are not modelled). -/
inductive PyValue where
  | int (n : Int)
  | str (s : String)
  | bool (b : Bool)
  | list (xs : List PyValue)
  | dict (entries : List (String × PyValue))

/-- Exceptions escaping `_validate_message`: its `except` clause catches
`ValueError` and `TypeError` but not `AttributeError`, which `.lower()`
on a non-string, non-bool `dating` value raises. -/
inductive PyError where
  | attributeError
deriving Repr, DecidableEq

/-- Python `str.lower` on the character list (the payload fields here
are ASCII; Lean's own `String.toLower` is the same map over the
characters, written on `String.data` so that it computes by `decide`). -/
def py_lower (s : String) : String :=
  ⟨s.data.map Char.toLower⟩

/-- Whether `int(x)` succeeds: ints and bools convert; strings convert
when they are an optionally signed digit string (surrounding whitespace
allowed); `int` of a list or dict raises `TypeError`, which the
validator catches. -/
def int_convertible : PyValue → Bool
  | .int _ => true
  | .bool _ => true
  | .str s =>
    let cs := s.data.dropWhile (fun c => c.isWhitespace)
    let cs := (cs.reverse.dropWhile (fun c => c.isWhitespace)).reverse
    let cs :=
      match cs with
      | '-' :: rest => rest
      | '+' :: rest => rest
      | _ => cs
    !cs.isEmpty && cs.all (fun c => c.isDigit)
  | _ => false

/-- The `dating` type check of `_validate_message`: a bool is valid
outright; otherwise `.lower()` is called and compared against
`['true','false']`, raising `AttributeError` on a value that has no
`.lower()`. -/
def valid_dating_check : PyValue → Except PyError Bool
  | .bool _ => .ok true
  | .str s => .ok (py_lower s == "true" || py_lower s == "false")
  | _ => .error .attributeError

/-- `MatchRequestHandler._validate_message`: the required top-level
fields, the criteria dict with its four fields, `int`-convertibility of
`user_id` and `fluency`, the `dating` bool-or-true/false-string check
and the `topics` list check. -/
def validate_message (message : List (String × PyValue)) : Except PyError Bool :=
  let required_fields := ["user_id", "username", "gender", "criteria", "lang_code", "created_at"]
  if required_fields.any (fun field => (message.lookup field).isNone) then .ok false
  else
    match message.lookup "criteria" with
    | some (.dict criteria) =>
      let criteria_fields := ["language", "fluency", "topics", "dating"]
      if criteria_fields.any (fun field => (criteria.lookup field).isNone) then .ok false
      else if !(int_convertible ((message.lookup "user_id").getD (.int 0))) then .ok false
      else if !(int_convertible ((criteria.lookup "fluency").getD (.int 0))) then .ok false
      else
        match valid_dating_check ((criteria.lookup "dating").getD (.int 0)) with
        | .error e => .error e
        | .ok valid_dating =>
          if !valid_dating then .ok false
          else
            match criteria.lookup "topics" with
            | some (.list _) => .ok true
            | _ => .ok false
    | _ => .ok false

/-! Theorems. -/

/-- Unfolding of the base compatibility check into its three conditions. -/
lemma is_compatible_with_iff (c x : MatchCriteria) :
    c.is_compatible_with x = true ↔
      c.language = x.language ∧ (c.fluency - x.fluency).natAbs ≤ 1 ∧
        c.topics.any (fun t => x.topics.contains t) = true := by
  unfold MatchCriteria.is_compatible_with
  split_ifs with h1 h2 h3 <;>
    simp_all [bne_iff_ne, Nat.lt_iff_add_one_le, Nat.not_le]

/-- C9: `relax` sets `dating := false` at step 3, appends the topic
"general" at step 5, lowers the fluency to `max 0 (fluency - 1)` at
step 8, is the identity at every other step, and never changes the
language. -/
theorem C9_relax_steps (c : MatchCriteria) (hc : c.Valid) :
    c.relax 3 = { c with dating := false } ∧
    c.relax 5 = { c with topics := c.topics ++ ["general"] } ∧
    c.relax 8 = { c with fluency := max 0 (c.fluency - 1) } ∧
    (∀ step : Int, step ≠ 3 → step ≠ 5 → step ≠ 8 → c.relax step = c) ∧
    (∀ step : Int, (c.relax step).language = c.language) := by
  obtain ⟨-, h0, -, -⟩ := hc
  refine ⟨by simp [MatchCriteria.relax], by simp [MatchCriteria.relax], ?_, ?_, ?_⟩
  · by_cases hf : 0 < c.fluency
    · have hmax : max 0 (c.fluency - 1) = c.fluency - 1 :=
        max_eq_right (by omega)
      simp [MatchCriteria.relax, hf, hmax]
    · have hz : c.fluency = 0 := le_antisymm (not_lt.mp hf) h0
      simp [MatchCriteria.relax, hf, hz]
  · intro step h3 h5 h8
    have e3 : (step == (3:Int)) = false := beq_eq_false_iff_ne.mpr h3
    have e5 : (step == (5:Int)) = false := beq_eq_false_iff_ne.mpr h5
    have e8 : (step == (8:Int)) = false := beq_eq_false_iff_ne.mpr h8
    simp [MatchCriteria.relax, e3, e5, e8]
  · intro step
    rfl

/-- C9 witness: the characterization applied to a concrete valid
criteria value. -/
theorem C9_witness :
    (MatchCriteria.mk "en" 5 ["music"] true).Valid ∧
    (MatchCriteria.mk "en" 5 ["music"] true).relax 3 =
      { MatchCriteria.mk "en" 5 ["music"] true with dating := false } :=
  ⟨by decide, (C9_relax_steps (MatchCriteria.mk "en" 5 ["music"] true) (by decide)).1⟩

/-- C8 counterexample: relaxation step 8 shrinks the set of accepted
partners.  With fluency 1, a partner of fluency 2 is compatible before
`relax 8` and incompatible after it (the difference grows to 2). -/
theorem C8_counterexample :
    (MatchCriteria.mk "en" 1 ["a"] false).is_compatible_with
      (MatchCriteria.mk "en" 2 ["a"] false) = true ∧
    ((MatchCriteria.mk "en" 1 ["a"] false).relax 8).is_compatible_with
      (MatchCriteria.mk "en" 2 ["a"] false) = false := by
  decide

/-- C8 amended: for every step other than 8 (the fluency-lowering one),
relaxation preserves base compatibility: steps 3 and 5 only drop the
dating requirement or add a topic, and every other step is the
identity. -/
theorem C8_relax_monotone_except_step8 (c x : MatchCriteria) (k : Int) (hk : k ≠ 8)
    (h : c.is_compatible_with x = true) :
    (c.relax k).is_compatible_with x = true := by
  rw [is_compatible_with_iff] at h
  obtain ⟨hl, hf, ht⟩ := h
  have e8 : (k == (8:Int)) = false := beq_eq_false_iff_ne.mpr hk
  have hlang : (c.relax k).language = c.language := rfl
  have hflu : (c.relax k).fluency = c.fluency := by
    simp [MatchCriteria.relax, e8]
  have htop : (c.relax k).topics.any (fun t => x.topics.contains t) = true := by
    rcases Bool.eq_false_or_eq_true (k == (5:Int)) with h5 | h5
    · have he : (c.relax k).topics = c.topics ++ ["general"] := by
        simp [MatchCriteria.relax, h5]
      rw [he, List.any_append, ht, Bool.true_or]
    · have he : (c.relax k).topics = c.topics := by
        simp [MatchCriteria.relax, h5]
      rw [he]; exact ht
  rw [is_compatible_with_iff, hlang, hflu]
  exact ⟨hl, hf, htop⟩

/-- C8 witness: the step-5 relaxation of compatible criteria stays
compatible. -/
theorem C8_witness :
    (5:Int) ≠ 8 ∧
    (MatchCriteria.mk "en" 1 ["a"] true).is_compatible_with
      (MatchCriteria.mk "en" 1 ["a"] true) = true ∧
    ((MatchCriteria.mk "en" 1 ["a"] true).relax 5).is_compatible_with
      (MatchCriteria.mk "en" 1 ["a"] true) = true :=
  ⟨by decide, by decide,
   C8_relax_monotone_except_step8 _ _ 5 (by decide) (by decide)⟩

/-- Concrete user for the scoring counterexample. -/
def C6a : User :=
  { user_id := 1, username := "a",
    criteria := { language := "en", fluency := 5, topics := ["music"], dating := true },
    gender := "m", lang_code := "en", created_at := 0, status := .WAITING }

/-- Concrete user with disjoint topics and the opposite dating flag. -/
def C6b : User :=
  { user_id := 2, username := "b",
    criteria := { language := "en", fluency := 0, topics := ["art"], dating := false },
    gender := "f", lang_code := "en", created_at := 0, status := .WAITING }

/-- C6 counterexample: with opposite dating flags the dating sub-score
is the placeholder 0.8 rather than 0, and with disjoint topic sets the
topics sub-score is the placeholder 0.8 rather than the Jaccard index 0;
the fluency sub-score is 0.8 at |Δ| = 5 rather than max(0, 1 − 5/5) = 0. -/
theorem C6_counterexample :
    C6a.criteria.dating ≠ C6b.criteria.dating ∧
    ((C6a.calculate_compatibility_score C6b scoring_weights).component_scores.lookup
      "dating") = some (8/10) ∧
    (C6a.criteria.topics.filter (fun t => C6b.criteria.topics.contains t)) = [] ∧
    ((C6a.calculate_compatibility_score C6b scoring_weights).component_scores.lookup
      "topics") = some (8/10) ∧
    (C6a.criteria.fluency - C6b.criteria.fluency).natAbs = 5 ∧
    ((C6a.calculate_compatibility_score C6b scoring_weights).component_scores.lookup
      "fluency") = some (8/10) := by
  exact ⟨by decide, rfl, by decide, rfl, by decide, rfl⟩

/-- Evaluation of the total score under the default weights. -/
lemma total_score_eval (u o : User) :
    (u.calculate_compatibility_score o scoring_weights).total_score =
      (if u.criteria.language == o.criteria.language then (35:ℚ)/100 else 0) + 51/100 := by
  have l1 : ((scoring_weights.lookup "language").getD 0 : ℚ) = 35/100 := rfl
  have l2 : ((scoring_weights.lookup "fluency").getD 0 : ℚ) = 25/100 := rfl
  have l3 : ((scoring_weights.lookup "topics").getD 0 : ℚ) = 20/100 := rfl
  have l4 : ((scoring_weights.lookup "dating").getD 0 : ℚ) = 10/100 := rfl
  have l5 : ((scoring_weights.lookup "activity").getD 0 : ℚ) = 5/100 := rfl
  have l6 : ((scoring_weights.lookup "success_rate").getD 0 : ℚ) = 5/100 := rfl
  unfold User.calculate_compatibility_score
  simp only [List.map_cons, List.map_nil, List.sum_cons, List.sum_nil, l1, l2, l3, l4, l5, l6]
  by_cases h : u.criteria.language == o.criteria.language <;>
    simp only [h, if_true, if_false, Bool.false_eq_true] <;> norm_num

/-- C6 amended: the language sub-score is 1 on equal languages and 0
otherwise, while the fluency, topics and dating sub-scores are the
placeholder constant 0.8 and activity / success_rate the constant 0.7
regardless of the inputs; under the default weights the total is
0.35·language + 0.51. -/
theorem C6_component_scores (u o : User) (weights : List (String × ℚ)) :
    (u.calculate_compatibility_score o weights).component_scores =
      [("language", if u.criteria.language == o.criteria.language then 1 else 0),
       ("fluency", 8/10), ("topics", 8/10), ("dating", 8/10),
       ("activity", 7/10), ("success_rate", 7/10)] ∧
    (u.calculate_compatibility_score o scoring_weights).total_score =
      (if u.criteria.language == o.criteria.language then (35:ℚ)/100 else 0) + 51/100 := by
  exact ⟨rfl, total_score_eval u o⟩

/-- Request used by the retry-delay counterexample. -/
def C7req : MatchRequest :=
  { user_id := 1, username := "a",
    criteria := { language := "en", fluency := 5, topics := ["music"], dating := true },
    gender := "m", lang_code := "en", status := "search_started",
    created_at := 0, current_time := 0, source := "worker_service", retry_count := 0 }

/-- Environment used by the retry-delay counterexample. -/
def C7env : ExecEnv := { now := 10, version_ok := true, commit_raises := false }

/-- World used by the retry-delay counterexample. -/
def C7w : WorldState := { redis := RedisState.empty, states := [] }

/-- C7 counterexample: at incoming `retry_count = 0` the code publishes
the redelivery with delay `min(30, 2·(0+2)) = 4` seconds, not
`min(30, 2·(0+1)) = 2` as claimed (the code applies the formula to the
already-incremented count). -/
theorem C7_counterexample :
    C7req.retry_count = 0 ∧
    (relax_criteria_and_retry C7env C7w C7req).2.2 = 4 ∧
    min (30:ℚ) (2 * ((C7req.retry_count : ℚ) + 1)) = 2 ∧ (4:ℚ) ≠ 2 := by
  refine ⟨rfl, ?_, ?_, by norm_num⟩
  · simp only [relax_criteria_and_retry, C7req]
    norm_num
  · simp only [C7req]
    norm_num

/-- C7 amended: the redelivered request carries `retry_count + 1` and
the relaxed criteria `relax(retry_count)` (also written back to the
queue store), and the publication delay is
`min(30, 2·(retry_count + 2))` seconds of the incoming count — that is,
`min(30, 2·(n+1))` applied to the outgoing count `n = retry_count + 1`. -/
theorem C7_relax_retry_delay (env : ExecEnv) (w : WorldState) (request : MatchRequest) :
    (relax_criteria_and_retry env w request).2.1.retry_count = request.retry_count + 1 ∧
    (relax_criteria_and_retry env w request).2.2 =
      min 30 (2 * ((request.retry_count : ℚ) + 2)) ∧
    (relax_criteria_and_retry env w request).2.1.criteria =
      request.criteria.relax (request.retry_count : Int) ∧
    (relax_criteria_and_retry env w request).1.redis =
      update_user_criteria w.redis request.user_id
        (request.criteria.relax (request.retry_count : Int)) := by
  refine ⟨rfl, ?_, rfl, rfl⟩
  show min (30:ℚ) (2 * (((request.retry_count + 1 : ℕ) : ℚ) + 1)) =
    min 30 (2 * ((request.retry_count : ℚ) + 2))
  congr 1
  push_cast
  ring

/-- The criteria dict of the payload used by the validation theorems. -/
def C10crit : List (String × PyValue) :=
  [("language", .str "english"), ("fluency", .int 2),
   ("topics", .list [.str "music", .str "sport"]), ("dating", .str "True")]

/-- A payload whose `criteria.dating` is the string "True". -/
def C10msg : List (String × PyValue) :=
  [("user_id", .str "1230"), ("username", .str "greatest"), ("gender", .str "male"),
   ("criteria", .dict C10crit), ("lang_code", .str "ru"),
   ("created_at", .str "2025-01-01T00:00:00")]

/-- C10: a payload with every required top-level and criteria field,
int-convertible `user_id` and `fluency`, a list `topics`, and a
string-typed `dating` whose lower-casing is "true" or "false" passes
`_validate_message`. -/
theorem C10_validate_message_accepts_string_dating
    (message criteria : List (String × PyValue)) (uidv flv : PyValue)
    (ts : List PyValue) (ds : String)
    (h_username : (message.lookup "username").isNone = false)
    (h_gender : (message.lookup "gender").isNone = false)
    (h_lang : (message.lookup "lang_code").isNone = false)
    (h_created : (message.lookup "created_at").isNone = false)
    (h_uid : message.lookup "user_id" = some uidv)
    (h_uid_int : int_convertible uidv = true)
    (h_crit : message.lookup "criteria" = some (.dict criteria))
    (h_lv : (criteria.lookup "language").isNone = false)
    (h_fl : criteria.lookup "fluency" = some flv)
    (h_fl_int : int_convertible flv = true)
    (h_tp : criteria.lookup "topics" = some (.list ts))
    (h_dt : criteria.lookup "dating" = some (.str ds))
    (h_ds : py_lower ds = "true" ∨ py_lower ds = "false") :
    validate_message message = .ok true := by
  unfold validate_message
  rcases h_ds with hds | hds <;>
    simp [h_username, h_gender, h_lang, h_created, h_uid, h_uid_int, h_crit, h_lv,
          h_fl, h_fl_int, h_tp, h_dt, hds, valid_dating_check]

/-- C10 witness: the handler's own unit-test payload with
`dating = "True"` validates (case-insensitively). -/
theorem C10_witness :
    C10crit.lookup "dating" = some (.str "True") ∧
    (py_lower "True" = "true" ∨ py_lower "True" = "false") ∧
    validate_message C10msg = .ok true :=
  ⟨rfl, Or.inl (by decide),
   C10_validate_message_accepts_string_dating C10msg C10crit (.str "1230") (.int 2)
     [.str "music", .str "sport"] "True" rfl rfl rfl rfl rfl (by decide) rfl rfl rfl
     (by decide) rfl rfl (Or.inl (by decide))⟩

/-- A successful `add_to_queue` LPUSHes the id onto the waiting list and
HSETs the criteria hash. -/
lemma add_to_queue_ok (s : RedisState) (u : User) (s' : RedisState)
    (h : add_to_queue s u = .ok s') :
    s'.waiting_queue = u.user_id :: s.waiting_queue ∧
    s'.criteria_data = assoc_set s.criteria_data u.user_id u.criteria := by
  unfold add_to_queue at h
  split at h
  · simp at h
  · injection h with h'
    subst h'
    exact ⟨rfl, rfl⟩

/-- Looking up the key just written by an HSET overwrite. -/
lemma assoc_set_lookup_self {α : Type} (l : List (Nat × α)) (k : Nat) (v : α) :
    (assoc_set l k v).lookup k = some v := by
  simp [assoc_set, List.lookup]

/-- Criteria and users shared by the FIFO counterexample. -/
def C4crit : MatchCriteria :=
  { language := "en", fluency := 5, topics := ["music"], dating := true }

/-- First user enqueued. -/
def C4u1 : User :=
  { user_id := 1, username := "a", criteria := C4crit, gender := "m", lang_code := "en",
    created_at := 0, status := .WAITING }

/-- Second user enqueued. -/
def C4u2 : User :=
  { user_id := 2, username := "b", criteria := C4crit, gender := "f", lang_code := "en",
    created_at := 0, status := .WAITING }

/-- Third user enqueued (the seeker). -/
def C4u3 : User :=
  { user_id := 3, username := "c", criteria := C4crit, gender := "m", lang_code := "en",
    created_at := 0, status := .WAITING }

/-- Stored hash of `C4u1`. -/
def C4st1 : StoredUser := { username := "a", gender := "m", lang_code := "en", created_at := 0 }

/-- Stored hash of `C4u2`. -/
def C4st2 : StoredUser := { username := "b", gender := "f", lang_code := "en", created_at := 0 }

/-- Stored hash of `C4u3`. -/
def C4st3 : StoredUser := { username := "c", gender := "m", lang_code := "en", created_at := 0 }

/-- Store after enqueuing `C4u1` into the empty store. -/
def C4s1 : RedisState :=
  { waiting_queue := [1], searching := [1],
    user_data := [(1, C4st1)], criteria_data := [(1, C4crit)] }

/-- Store after also enqueuing `C4u2`. -/
def C4s2 : RedisState :=
  { waiting_queue := [2, 1], searching := [2, 1],
    user_data := [(2, C4st2), (1, C4st1)], criteria_data := [(2, C4crit), (1, C4crit)] }

/-- Store after also enqueuing `C4u3`. -/
def C4s3 : RedisState :=
  { waiting_queue := [3, 2, 1], searching := [3, 2, 1],
    user_data := [(3, C4st3), (2, C4st2), (1, C4st1)],
    criteria_data := [(3, C4crit), (2, C4crit), (1, C4crit)] }

/-- C4 counterexample: users 1, 2, 3 are enqueued in that order by
`add_to_queue`; both 1 and 2 pass the prefilter for seeker 3, yet the
scan returns 2 — the most recently enqueued passing candidate — not the
earliest-enqueued 1 the claim names (LPUSH prepends and the Lua scan
walks from the head). -/
theorem C4_counterexample :
    add_to_queue RedisState.empty C4u1 = .ok C4s1 ∧
    add_to_queue C4s1 C4u2 = .ok C4s2 ∧
    add_to_queue C4s2 C4u3 = .ok C4s3 ∧
    prefilter_pass C4s3.criteria_data 3 "en" 5 1 = true ∧
    prefilter_pass C4s3.criteria_data 3 "en" 5 2 = true ∧
    find_candidate_script C4s3 3 "en" 5 = some 2 := by
  refine ⟨?_, ?_, ?_, by decide, by decide, by decide⟩ <;> rfl

/-- C4 amended: `add_to_queue` prepends (LPUSH) and the reservation scan
walks the list from the head, so among prefilter-passing candidates the
most recently enqueued one is returned: after enqueuing `u` and then
`v`, both passing, the scan returns `v`. -/
theorem C4_scan_returns_latest_enqueued
    (s s1 s2 : RedisState) (u v : User) (sid : Nat) (lang : String) (fl : Int)
    (hadd1 : add_to_queue s u = .ok s1) (hadd2 : add_to_queue s1 v = .ok s2)
    (hmem : s2.waiting_queue.contains sid = true)
    (huv : u.user_id ≠ v.user_id) (hus : u.user_id ≠ sid) (hvs : v.user_id ≠ sid)
    (hulang : (u.criteria.language == lang) = true)
    (huflu : (u.criteria.fluency - fl).natAbs ≤ 2)
    (hvlang : (v.criteria.language == lang) = true)
    (hvflu : (v.criteria.fluency - fl).natAbs ≤ 2) :
    find_candidate_script s2 sid lang fl = some v.user_id := by
  obtain ⟨hq2, hc2⟩ := add_to_queue_ok s1 v s2 hadd2
  have hpf : prefilter_pass s2.criteria_data sid lang fl v.user_id = true := by
    unfold prefilter_pass
    rw [hc2, assoc_set_lookup_self]
    simp [bne_iff_ne, hvs, hvlang, hvflu]
  unfold find_candidate_script
  rw [if_pos hmem, hq2, List.find?_cons_of_pos _ hpf]

/-- Queue holding only the seeker, before the two candidate adds. -/
def C4ws : RedisState :=
  { waiting_queue := [3], searching := [3],
    user_data := [(3, C4st3)], criteria_data := [(3, C4crit)] }

/-- `C4ws` after enqueuing `C4u1`. -/
def C4ws1 : RedisState :=
  { waiting_queue := [1, 3], searching := [1, 3],
    user_data := [(1, C4st1), (3, C4st3)], criteria_data := [(1, C4crit), (3, C4crit)] }

/-- `C4ws1` after enqueuing `C4u2`. -/
def C4ws2 : RedisState :=
  { waiting_queue := [2, 1, 3], searching := [2, 1, 3],
    user_data := [(2, C4st2), (1, C4st1), (3, C4st3)],
    criteria_data := [(2, C4crit), (1, C4crit), (3, C4crit)] }

/-- C4 witness: the amended scan-order theorem applied to the concrete
three-user queue. -/
theorem C4_witness :
    add_to_queue C4ws C4u1 = .ok C4ws1 ∧
    add_to_queue C4ws1 C4u2 = .ok C4ws2 ∧
    C4ws2.waiting_queue.contains 3 = true ∧
    find_candidate_script C4ws2 3 "en" 5 = some C4u2.user_id :=
  ⟨by rfl, by rfl, by decide,
   C4_scan_returns_latest_enqueued C4ws C4ws1 C4ws2 C4u1 C4u2 3 "en" 5
     (by rfl) (by rfl) (by decide) (by decide) (by decide) (by decide)
     (by decide) (by decide) (by decide) (by decide)⟩

/-- C5 amended: under a non-terminal status and a stored, non-expired
state, `_should_process_request` skips the request with no action
exactly when the user is no longer searching AND the stored state says
MATCHED; with a WAITING state (or no state at all) processing continues
even though `is_searching` is false. -/
theorem C5_skip_requires_matched_state
    (env : ExecEnv) (w : WorldState) (request : MatchRequest) (st : UserState)
    (hterm1 : request.status ≠ SEARCH_CANCELED)
    (hterm2 : request.status ≠ SEARCH_COMPLETED)
    (hget : get_state env.now w.states request.user_id = (some st, w.states))
    (hexp : st.is_expired env.now max_wait_time = false) :
    should_process_request env w request = (false, w) ↔
      (is_searching w.redis request.user_id = false ∧ st.status = UserStatus.MATCHED) := by
  obtain ⟨wr, ws⟩ := w
  have h1 : (request.status == SEARCH_CANCELED || request.status == SEARCH_COMPLETED) = false := by
    simp [hterm1, hterm2]
  unfold should_process_request
  rw [h1]
  simp only [Bool.false_eq_true, if_false, hget, hexp]
  by_cases hcond :
      (!(is_searching wr request.user_id) && (st.status == UserStatus.MATCHED)) = true
  · simp only [hcond, if_true]
    constructor
    · intro _
      simp only [Bool.and_eq_true, Bool.not_eq_true', beq_iff_eq] at hcond
      exact hcond
    · intro _
      trivial
  · simp only [Bool.not_eq_true] at hcond
    simp only [hcond, Bool.false_eq_true, if_false]
    constructor
    · intro hpair
      exact absurd (congrArg Prod.fst hpair) (by simp)
    · intro hrhs
      obtain ⟨hs, hm⟩ := hrhs
      rw [hs, hm] at hcond
      simp at hcond

/-- Criteria of the user in the liveness counterexample. -/
def C5crit : MatchCriteria :=
  { language := "en", fluency := 5, topics := ["music"], dating := true }

/-- Stored hash of the user in the liveness counterexample. -/
def C5stored : StoredUser := { username := "a", gender := "m", lang_code := "en", created_at := 0 }

/-- In-process state of the user: WAITING, 5 seconds old. -/
def C5st : UserState :=
  { user_id := 1, status := .WAITING, created_at := 5, retry_count := 0, last_updated := 5 }

/-- Redis store in which user 1 has hashes but no `searching:` sentinel
and the waiting list is empty (user removed by another path). -/
def C5redis : RedisState :=
  { waiting_queue := [], searching := [], user_data := [(1, C5stored)],
    criteria_data := [(1, C5crit)] }

/-- World of the liveness counterexample. -/
def C5w : WorldState := { redis := C5redis, states := [(1, C5st)] }

/-- Request of the liveness counterexample: active search, 10 seconds
elapsed, first delivery. -/
def C5req : MatchRequest :=
  { user_id := 1, username := "a", criteria := C5crit, gender := "m", lang_code := "en",
    status := "search_started", created_at := 0, current_time := 0,
    source := "worker_service", retry_count := 0 }

/-- Environment of the liveness counterexample. -/
def C5env : ExecEnv := { now := 10, version_ok := true, commit_raises := false }

/-- Admission evaluates to proceed on the counterexample world. -/
lemma C5sp : should_process_request C5env C5w C5req = (true, C5w) := by
  have h300 : ¬ ((300:ℚ) < 10 - 5) := by norm_num
  have h150 : ¬ ((150:ℚ) < 10 - 5) := by norm_num
  simp [should_process_request, C5env, C5w, C5req, C5st, SEARCH_CANCELED, SEARCH_COMPLETED,
    get_state, List.lookup, UserState.is_expired, state_ttl, max_wait_time, is_searching,
    C5redis, h300, h150]

/-- The find-match step returns no match on the empty waiting list. -/
lemma C5find : FindMatchUseCase.execute 10 C5redis C5req.user_id = .ok none := by
  simp [FindMatchUseCase.execute, find_by_id, C5redis, C5req, C5crit, C5stored, List.lookup,
    find_compatible_users, collect_candidates]

/-- C5 counterexample: a non-terminal, non-timed-out request whose user
has no `searching:` sentinel but whose stored state is WAITING is fully
processed — the use case runs a matching attempt and schedules a relax
retry — instead of returning handled without action. -/
theorem C5_counterexample :
    is_searching C5w.redis 1 = false ∧
    C5req.status ≠ SEARCH_CANCELED ∧ C5req.status ≠ SEARCH_COMPLETED ∧
    C5env.now - C5req.created_at < max_wait_time ∧
    (ProcessMatchRequestUseCase.execute C5env C5w C5req).published ≠ [] := by
  refine ⟨rfl, by decide, by decide, by norm_num [C5env, C5req, max_wait_time], ?_⟩
  have hdelay : should_delay_processing C5env C5req = false := by
    have h1 : ¬ ((10:ℚ) - 0 < 1) := by norm_num
    simp [should_delay_processing, C5env, C5req, initial_delay, h1]
  have hw : C5w.redis = C5redis := rfl
  have hn : C5env.now = (10:ℚ) := rfl
  have hnm : ¬ ((150:ℚ) ≤ 10 - 0) := by norm_num
  have hnr : ¬ (max_retries ≤ C5req.retry_count) := by decide
  simp [ProcessMatchRequestUseCase.execute, C5sp, hdelay, hw, hn, handle_no_match,
    max_wait_time, hnm, hnr, relax_criteria_and_retry]
  rw [C5find]
  have hnm2 : ¬ ((150:ℚ) ≤ 10) := by norm_num
  simp [C5req, hnm2]

/-- C5 witness: the amended skip condition applied concretely — with a
MATCHED state and no sentinel the request is skipped without action. -/
def C5stMatched : UserState :=
  { user_id := 1, status := .MATCHED, created_at := 5, retry_count := 0, last_updated := 5 }

/-- World of the C5 witness: same store, MATCHED state. -/
def C5wMatched : WorldState := { redis := C5redis, states := [(1, C5stMatched)] }

/-- C5 witness: the amended theorem applied at a concrete MATCHED
state. -/
theorem C5_witness :
    should_process_request C5env C5wMatched C5req = (false, C5wMatched) :=
  (C5_skip_requires_matched_state C5env C5wMatched C5req C5stMatched
      (by decide) (by decide)
      (by simp [get_state, C5wMatched, C5env, C5req, C5stMatched, List.lookup,
            UserState.is_expired, state_ttl]
          norm_num)
      (by simp [UserState.is_expired, C5env, C5stMatched, max_wait_time]
          norm_num)).mpr
    ⟨rfl, rfl⟩

/-- Base compatibility of users implies equality of their languages. -/
lemma language_eq_of_compatible (u c : User) (h : u.is_compatible_with c = true) :
    (u.criteria.language == c.criteria.language) = true := by
  unfold User.is_compatible_with at h
  split at h
  · exact absurd h (by simp)
  · rw [is_compatible_with_iff] at h
    exact beq_iff_eq.mpr h.1

/-- Base compatibility of users implies distinct ids. -/
lemma ids_ne_of_compatible (u c : User) (h : u.is_compatible_with c = true) :
    (u.user_id == c.user_id) = false := by
  unfold User.is_compatible_with at h
  split at h
  · exact absurd h (by simp)
  · next hne => simpa using hne

/-- Every base-compatible candidate clears the 0.7 scoring threshold
under the default weights (the placeholder sub-scores put the total at
0.86 whenever the languages agree). -/
lemma threshold_le_total (u c : User) (h : u.is_compatible_with c = true) :
    compatibility_threshold ≤ (u.calculate_compatibility_score c scoring_weights).total_score := by
  rw [total_score_eval, if_pos (language_eq_of_compatible u c h)]
  norm_num [compatibility_threshold]

/-- Everything `find_compatible_users` returns passed the full
`is_compatible_with` check against the seeker. -/
lemma compatible_of_mem_find_compatible_users (s : RedisState) (u : User) (limit : Nat)
    (c : User) (hc : c ∈ find_compatible_users s u limit) :
    u.is_compatible_with c = true := by
  unfold find_compatible_users at hc
  rw [List.mem_filterMap] at hc
  obtain ⟨cid, -, heq⟩ := hc
  cases hfid : find_by_id s cid with
  | none =>
    rw [hfid] at heq
    exact absurd heq (by simp)
  | some cand =>
    rw [hfid] at heq
    simp only [] at heq
    by_cases hcomp : u.is_compatible_with cand = true
    · rw [if_pos hcomp] at heq
      injection heq with heq'
      subst heq'
      exact hcomp
    · rw [if_neg hcomp] at heq
      exact absurd heq (by simp)

/-- Folding the ranking step from a `some` accumulator yields an element
of the accumulator-or-list. -/
lemma foldl_pick_step_some :
    ∀ (l : List ScoredCandidate) (b : ScoredCandidate),
      ∃ d, l.foldl pick_step (some b) = some d ∧ (d = b ∨ d ∈ l) := by
  intro l
  induction l with
  | nil => exact fun b => ⟨b, rfl, Or.inl rfl⟩
  | cons c rest ih =>
    intro b
    rw [List.foldl_cons]
    have hstep : pick_step (some b) c = some b ∨ pick_step (some b) c = some c := by
      cases hlt : decide (b.score.total_score < c.score.total_score) <;>
        simp [pick_step, hlt]
    rcases hstep with hs | hs <;> rw [hs]
    · obtain ⟨d, hd, hmem⟩ := ih b
      exact ⟨d, hd, hmem.imp id (List.mem_cons_of_mem c)⟩
    · obtain ⟨d, hd, hmem⟩ := ih c
      rcases hmem with hdb | hdm
      · exact ⟨d, hd, Or.inr (hdb ▸ List.mem_cons_self c rest)⟩
      · exact ⟨d, hd, Or.inr (List.mem_cons_of_mem c hdm)⟩

/-- `pick_best` of a non-empty list is one of its members. -/
lemma pick_best_cons (c : ScoredCandidate) (l : List ScoredCandidate) :
    ∃ d, pick_best (c :: l) = some d ∧ d ∈ c :: l := by
  unfold pick_best
  rw [List.foldl_cons]
  have : pick_step none c = some c := rfl
  rw [this]
  obtain ⟨d, hd, hmem⟩ := foldl_pick_step_some l c
  rcases hmem with hdb | hdm
  · exact ⟨d, hd, hdb ▸ List.mem_cons_self c l⟩
  · exact ⟨d, hd, List.mem_cons_of_mem c hdm⟩

/-- A base-compatible candidate survives the threshold filter with its
score attached. -/
lemma score_filter_of_compatible (user c : User) (h : user.is_compatible_with c = true) :
    score_filter user c =
      some { candidate := c, score := user.calculate_compatibility_score c scoring_weights } := by
  unfold score_filter
  rw [if_pos (decide_eq_true (threshold_le_total user c h))]

/-- Whatever the threshold filter emits is a listed candidate paired
with its own score. -/
lemma score_filter_char (user a : User) (sc : ScoredCandidate)
    (h : score_filter user a = some sc) :
    sc.candidate = a ∧ sc.score = user.calculate_compatibility_score a scoring_weights := by
  unfold score_filter at h
  by_cases hth : decide (compatibility_threshold ≤
      (user.calculate_compatibility_score a scoring_weights).total_score) = true
  · rw [if_pos hth] at h
    injection h with h'
    subst h'
    exact ⟨rfl, rfl⟩
  · rw [if_neg hth] at h
    exact absurd h (by simp)

/-- On a non-empty list of base-compatible candidates,
`_select_best_candidate` returns a candidate from the list together with
its score (the threshold filter drops nobody, §4.5 placeholders). -/
lemma select_best_candidate_spec (user : User) (candidates : List User)
    (hall : ∀ c ∈ candidates, user.is_compatible_with c = true)
    (hne : candidates ≠ []) :
    ∃ sc, select_best_candidate user candidates = some sc ∧ sc.candidate ∈ candidates ∧
      sc.score = user.calculate_compatibility_score sc.candidate scoring_weights := by
  unfold select_best_candidate
  cases hlist : candidates.filterMap (score_filter user) with
  | nil =>
    exfalso
    cases candidates with
    | nil => exact hne rfl
    | cons c rest =>
      have hmem : ScoredCandidate.mk c (user.calculate_compatibility_score c scoring_weights)
          ∈ (c :: rest).filterMap (score_filter user) := by
        rw [List.mem_filterMap]
        exact ⟨c, List.mem_cons_self c rest,
          score_filter_of_compatible user c (hall c (List.mem_cons_self c rest))⟩
      rw [hlist] at hmem
      cases hmem
  | cons sc0 scs =>
    obtain ⟨d, hd, hdmem⟩ := pick_best_cons sc0 scs
    refine ⟨d, hd, ?_⟩
    have : d ∈ candidates.filterMap (score_filter user) := hlist ▸ hdmem
    rw [List.mem_filterMap] at this
    obtain ⟨a, ha, heq⟩ := this
    obtain ⟨hca, hcs⟩ := score_filter_char user a d heq
    exact ⟨hca ▸ ha, hca ▸ hcs⟩

/-- When the seeker exists and a base-compatible candidate is in scan
range, the find-match use case produces a match whose first user is the
seeker and whose second user came from `find_compatible_users`. -/
lemma find_match_execute_some (now : ℚ) (s : RedisState) (user_id : Nat) (user : User)
    (hu : find_by_id s user_id = some user)
    (hne : find_compatible_users s user 50 ≠ []) :
    ∃ m, FindMatchUseCase.execute now s user_id = .ok (some m) ∧
      m.user1 = user ∧ m.user2 ∈ find_compatible_users s user 50 := by
  have hall : ∀ c ∈ find_compatible_users s user 50, user.is_compatible_with c = true :=
    fun c hc => compatible_of_mem_find_compatible_users s user 50 c hc
  obtain ⟨sc, hsel, hmem, hscore⟩ := select_best_candidate_spec user _ hall hne
  have hcomp : user.is_compatible_with sc.candidate = true := hall sc.candidate hmem
  have hempty : (find_compatible_users s user 50).isEmpty = false := by
    cases h : find_compatible_users s user 50
    · exact absurd h hne
    · rfl
  have htot : sc.score.total_score =
      (if user.criteria.language == sc.candidate.criteria.language then (35:ℚ)/100 else 0)
        + 51/100 := by
    rw [hscore, total_score_eval]
  have hlang := language_eq_of_compatible user sc.candidate hcomp
  have hbounds : (decide ((0:ℚ) ≤ sc.score.total_score) &&
      decide (sc.score.total_score ≤ 1)) = true := by
    rw [htot, if_pos hlang]
    norm_num
  have hcreate : Match.create user sc.candidate sc.score.total_score now =
      .ok { match_id := "uuid4", user1 := user, user2 := sc.candidate, room_id := "uuid4",
            compatibility_score := sc.score.total_score, created_at := now,
            status := "active" } := by
    unfold Match.create
    rw [if_neg (by simp [hcomp]), if_neg (by simp [ids_ne_of_compatible user sc.candidate hcomp]),
        if_neg (by simp [hbounds])]
  refine ⟨{ match_id := "uuid4", user1 := user, user2 := sc.candidate, room_id := "uuid4",
            compatibility_score := sc.score.total_score, created_at := now,
            status := "active" }, ?_, rfl, hmem⟩
  unfold FindMatchUseCase.execute
  rw [hu]
  simp only [hempty, Bool.false_eq_true, if_false, hsel, hcreate]

/-- The find-match use case reports no match exactly when
`find_compatible_users` finds nobody. -/
lemma find_match_execute_none_iff (now : ℚ) (s : RedisState) (user_id : Nat) (user : User)
    (hu : find_by_id s user_id = some user) :
    (FindMatchUseCase.execute now s user_id = .ok none ↔
      find_compatible_users s user 50 = []) := by
  constructor
  · intro h
    by_contra hne
    obtain ⟨m, hm, -, -⟩ := find_match_execute_some now s user_id user hu hne
    rw [hm] at h
    simp at h
  · intro h
    unfold FindMatchUseCase.execute
    rw [hu]
    simp [h, List.isEmpty]

/-- C2 amended: the find-match use case never consults
`find_and_reserve_match`; it draws its candidate from the read-only
`find_compatible_users` scan — returning nothing iff that scan is empty,
and otherwise a match between the seeker and a scanned candidate — and
it removes nothing from the waiting list (its state argument is
read-only). -/
theorem C2_find_match_bypasses_reservation (now : ℚ) (s : RedisState) (user_id : Nat)
    (user : User) (hu : find_by_id s user_id = some user) :
    (FindMatchUseCase.execute now s user_id = .ok none ↔
      find_compatible_users s user 50 = []) ∧
    (∀ m : Match, FindMatchUseCase.execute now s user_id = .ok (some m) →
      m.user1 = user ∧ m.user2 ∈ find_compatible_users s user 50 ∧
        user.is_compatible_with m.user2 = true) := by
  refine ⟨find_match_execute_none_iff now s user_id user hu, ?_⟩
  intro m hm
  by_cases hne : find_compatible_users s user 50 = []
  · have := (find_match_execute_none_iff now s user_id user hu).mpr hne
    rw [hm] at this
    simp at this
  · obtain ⟨m', hm', h1, h2⟩ := find_match_execute_some now s user_id user hu hne
    rw [hm'] at hm
    injection hm with hm''
    injection hm'' with hm'''
    subst hm'''
    exact ⟨h1, h2, compatible_of_mem_find_compatible_users s user 50 _ h2⟩

/-- Criteria shared by the concrete two-user scenario. -/
def Scrit : MatchCriteria :=
  { language := "en", fluency := 5, topics := ["music"], dating := true }

/-- Stored hash of user 1. -/
def Sst1 : StoredUser := { username := "a", gender := "m", lang_code := "en", created_at := 0 }

/-- Stored hash of user 2. -/
def Sst2 : StoredUser := { username := "b", gender := "f", lang_code := "en", created_at := 0 }

/-- User 1 as `find_by_id` reconstructs them. -/
def Suser1 : User :=
  { user_id := 1, username := "a", criteria := Scrit, gender := "m", lang_code := "en",
    created_at := 0, status := .WAITING }

/-- User 2 as `find_by_id` reconstructs them. -/
def Suser2 : User :=
  { user_id := 2, username := "b", criteria := Scrit, gender := "f", lang_code := "en",
    created_at := 0, status := .WAITING }

/-- Redis store with both users enqueued (2 enqueued after 1). -/
def Sredis : RedisState :=
  { waiting_queue := [2, 1], searching := [2, 1],
    user_data := [(1, Sst1), (2, Sst2)], criteria_data := [(1, Scrit), (2, Scrit)] }

/-- The match the find-match use case builds for the scenario (total
score 0.86, uuids opaque, created at t = 10). -/
def Sm : Match :=
  { match_id := "uuid4", user1 := Suser1, user2 := Suser2, room_id := "uuid4",
    compatibility_score := 86/100, created_at := 10, status := "active" }

/-- The find-match use case on any store that resolves user 1 and scans
exactly user 2 produces the scenario match. -/
lemma execute_pair_eval (s : RedisState)
    (h1 : find_by_id s 1 = some Suser1)
    (h2 : find_compatible_users s Suser1 50 = [Suser2]) :
    FindMatchUseCase.execute 10 s 1 = .ok (some Sm) := by
  have hcomp : Suser1.is_compatible_with Suser2 = true := by decide
  have hsel : select_best_candidate Suser1 [Suser2] =
      some (ScoredCandidate.mk Suser2
        (Suser1.calculate_compatibility_score Suser2 scoring_weights)) := by
    simp [select_best_candidate, score_filter_of_compatible Suser1 Suser2 hcomp,
      pick_best, pick_step]
  have ht : (Suser1.calculate_compatibility_score Suser2 scoring_weights).total_score =
      86/100 := by
    rw [total_score_eval]
    norm_num [Suser1, Suser2, Scrit]
  have hcreate : Match.create Suser1 Suser2
      (Suser1.calculate_compatibility_score Suser2 scoring_weights).total_score 10 =
        .ok Sm := by
    unfold Match.create
    rw [ht]
    have hb : (decide ((0:ℚ) ≤ 86/100) && decide ((86:ℚ)/100 ≤ 1)) = true := by
      simp only [Bool.and_eq_true, decide_eq_true_eq]
      norm_num
    rw [if_neg (by simp [hcomp]), if_neg (by decide), if_neg (by simp [hb])]
    rfl
  unfold FindMatchUseCase.execute
  rw [h1]
  simp only [h2, List.isEmpty_cons, Bool.false_eq_true, if_false, hsel, hcreate]

/-- Store in which the seeker (user 1) is no longer in the waiting list
— as after being reserved by another worker — but user 2 still is, and
both keep their hashes. -/
def C2redis : RedisState :=
  { waiting_queue := [2], searching := [2],
    user_data := [(1, Sst1), (2, Sst2)], criteria_data := [(1, Scrit), (2, Scrit)] }

/-- C2 counterexample: `find_and_reserve_match` returns nothing (the
seeker is gone from the waiting list), yet the find-match use case still
returns a Match for user 2 — it never consults the atomic primitive and
reserves nobody. -/
theorem C2_counterexample :
    (find_and_reserve_match C2redis Suser1).1 = none ∧
    find_by_id C2redis 1 = some Suser1 ∧
    FindMatchUseCase.execute 10 C2redis 1 = .ok (some Sm) ∧
    (2:Nat) ∈ (find_and_reserve_match C2redis Suser1).2.waiting_queue := by
  refine ⟨rfl, rfl, execute_pair_eval C2redis rfl (by decide), by decide⟩

/-- Store with records of user 1 and an empty waiting list, for the C2
witness. -/
def C2wredis : RedisState :=
  { waiting_queue := [], searching := [], user_data := [(1, Sst1)],
    criteria_data := [(1, Scrit)] }

/-- C2 witness: the amended characterization applied to a concrete
store with an empty scan. -/
theorem C2_witness :
    find_by_id C2wredis 1 = some Suser1 ∧
    (FindMatchUseCase.execute 10 C2wredis 1 = .ok none ↔
      find_compatible_users C2wredis Suser1 50 = []) :=
  ⟨rfl, (C2_find_match_bypasses_reservation 10 C2wredis 1 Suser1 rfl).1⟩

/-- World of the commit scenario: both users enqueued, no prior state. -/
def Sw : WorldState := { redis := Sredis, states := [] }

/-- Request of the commit scenario: user 1 searching, 10 s elapsed. -/
def Sreq : MatchRequest :=
  { user_id := 1, username := "a", criteria := Scrit, gender := "m", lang_code := "en",
    status := "search_started", created_at := 0, current_time := 0,
    source := "worker_service", retry_count := 0 }

/-- Fresh state the admission check creates for user 1. -/
def Sstate1 : UserState :=
  { user_id := 1, status := .WAITING, created_at := 10, retry_count := 0, last_updated := 10 }

/-- World after admission. -/
def Sw1 : WorldState := { redis := Sredis, states := [(1, Sstate1)] }

/-- Environment of the successful-commit run. -/
def Senv : ExecEnv := { now := 10, version_ok := true, commit_raises := false }

/-- Environment of the failing-commit run. -/
def C3env : ExecEnv := { now := 10, version_ok := true, commit_raises := true }

/-- Admission of the scenario request creates the fresh state and
proceeds. -/
lemma Ssp (env : ExecEnv) (h : env.now = 10) :
    should_process_request env Sw Sreq = (true, Sw1) := by
  simp [should_process_request, Sw, Sreq, SEARCH_CANCELED, SEARCH_COMPLETED, get_state,
    List.lookup, save_state, assoc_set, Sw1, Sstate1, h]

/-- Ten seconds elapsed clears the one-second initial delay. -/
lemma Sdelay (env : ExecEnv) (h : env.now = 10) :
    should_delay_processing env Sreq = false := by
  have h1 : ¬ ((10:ℚ) - 0 < 1) := by norm_num
  simp [should_delay_processing, Sreq, initial_delay, h, h1]

/-- The scenario's find-match call returns the scenario match. -/
lemma Sfind : FindMatchUseCase.execute 10 Sredis 1 = .ok (some Sm) :=
  execute_pair_eval Sredis rfl (by decide)

/-- The successful-commit run commits the scenario match, then diverges
in the post-commit `uow.update` loop: its first `update_state` call
deadlocks, so the run hangs with the post-admission world unchanged. -/
lemma Sexec : ProcessMatchRequestUseCase.execute Senv Sw Sreq =
    { ack := false, committed := some Sm, published := [], dead_letters := [],
      errors := [], world := Sw1, hangs := true } := by
  have hsp := Ssp Senv rfl
  have hd := Sdelay Senv rfl
  have en : Senv.now = 10 := rfl
  have ev : Senv.version_ok = true := rfl
  have ec : Senv.commit_raises = false := rfl
  have ew : Sw1.redis = Sredis := rfl
  have er : Sreq.user_id = 1 := rfl
  have e1 : Sm.user1.user_id = 1 := rfl
  have e2 : Sm.user2.user_id = 2 := rfl
  simp [ProcessMatchRequestUseCase.execute, hsp, hd, en, ev, ec, ew, er, e1, e2,
    Sfind, uow_update, uow_update_go, update_state]

/-- The successful-commit run commits the scenario match. -/
lemma Sexec_committed :
    (ProcessMatchRequestUseCase.execute Senv Sw Sreq).committed = some Sm := by
  rw [Sexec]

/-- C1: refuted — on the concrete run where the version check passes and
the commit succeeds, the use case commits the match but the post-commit
`uow.update` loop deadlocks at its first `update_state` call
(`MemoryStateRepository.update_state` holds its non-reentrant lock and
awaits `get_state`, which re-acquires the same lock), so
`remove_from_queue` never runs: the coroutine hangs and both matched
users remain in the waiting list with live `searching:` sentinels,
against the claimed post-commit cleanup. -/
theorem C1_commit_leaves_users_enqueued :
    (ProcessMatchRequestUseCase.execute Senv Sw Sreq).committed = some Sm ∧
    (ProcessMatchRequestUseCase.execute Senv Sw Sreq).hangs = true ∧
    Sm.user1.user_id ∈
      (ProcessMatchRequestUseCase.execute Senv Sw Sreq).world.redis.waiting_queue ∧
    Sm.user2.user_id ∈
      (ProcessMatchRequestUseCase.execute Senv Sw Sreq).world.redis.waiting_queue ∧
    is_searching (ProcessMatchRequestUseCase.execute Senv Sw Sreq).world.redis
      Sm.user1.user_id = true ∧
    is_searching (ProcessMatchRequestUseCase.execute Senv Sw Sreq).world.redis
      Sm.user2.user_id = true := by
  rw [Sexec]
  exact ⟨rfl, rfl, by decide, by decide, by decide, by decide⟩

/-- C3 amended: when the find-match step returns a Match and the commit
raises, the use case publishes nothing (no re-enqueue, no 2-second
retry), records a `request_processing_error` (no `commit_failed` error
type exists), dead-letters the request, and returns failed; the waiting
queue is exactly what it was before the attempt. -/
theorem C3_commit_failure_is_dead_lettered (env : ExecEnv) (w w1 : WorldState)
    (request : MatchRequest) (m : Match)
    (hsp : should_process_request env w request = (true, w1))
    (hdelay : should_delay_processing env request = false)
    (hfind : FindMatchUseCase.execute env.now w1.redis request.user_id = .ok (some m))
    (hv : env.version_ok = true) (hc : env.commit_raises = true) :
    ProcessMatchRequestUseCase.execute env w request =
      { ack := false, committed := none, published := [],
        dead_letters := [processing_error_letter],
        errors := ["request_processing_error"], world := w1, hangs := false } := by
  simp [ProcessMatchRequestUseCase.execute, hsp, hdelay, hfind, hv, hc]

/-- The failing-commit run dead-letters and changes no Redis state. -/
lemma C3exec : ProcessMatchRequestUseCase.execute C3env Sw Sreq =
    { ack := false, committed := none, published := [],
      dead_letters := [processing_error_letter],
      errors := ["request_processing_error"], world := Sw1, hangs := false } := by
  have hsp := Ssp C3env rfl
  have hd := Sdelay C3env rfl
  have en : C3env.now = 10 := rfl
  have ev : C3env.version_ok = true := rfl
  have ec : C3env.commit_raises = true := rfl
  have ew : Sw1.redis = Sredis := rfl
  have er : Sreq.user_id = 1 := rfl
  simp [ProcessMatchRequestUseCase.execute, hsp, hd, en, ev, ec, ew, er, Sfind]

/-- C3 counterexample: on a run that fails exactly at commit (the same
inputs commit successfully when the commit does not raise), the use case
publishes no retry at all — in particular none with a 2-second delay —
re-enqueues nobody (the queue is untouched), records
`request_processing_error` rather than `commit_failed`, and dead-letters
the request. -/
theorem C3_counterexample :
    (ProcessMatchRequestUseCase.execute C3env Sw Sreq).ack = false ∧
    (ProcessMatchRequestUseCase.execute C3env Sw Sreq).published = [] ∧
    (ProcessMatchRequestUseCase.execute C3env Sw Sreq).dead_letters =
      [processing_error_letter] ∧
    (ProcessMatchRequestUseCase.execute C3env Sw Sreq).errors =
      ["request_processing_error"] ∧
    (ProcessMatchRequestUseCase.execute C3env Sw Sreq).world.redis = Sw.redis ∧
    (ProcessMatchRequestUseCase.execute Senv Sw Sreq).committed = some Sm := by
  rw [C3exec]
  exact ⟨rfl, rfl, rfl, rfl, rfl, Sexec_committed⟩

/-- C3 witness: the amended commit-failure theorem at the concrete
failing run. -/
theorem C3_witness :
    C3env.commit_raises = true ∧
    ProcessMatchRequestUseCase.execute C3env Sw Sreq =
      { ack := false, committed := none, published := [],
        dead_letters := [processing_error_letter],
        errors := ["request_processing_error"], world := Sw1, hangs := false } :=
  ⟨rfl, C3_commit_failure_is_dead_lettered C3env Sw Sw1 Sreq Sm
    (Ssp C3env rfl) (Sdelay C3env rfl) Sfind rfl rfl⟩

end QueueWorker
